import Mathlib

/-!
Shallow embedding of `scripts/validate_tokens.py` (token-list validator).

JSON5 descriptor values are modelled by `Value`; Python dictionaries by
association lists in insertion order.  Python semantics that the script
relies on are modelled explicitly:
  * `bool` is a subclass of `int` (`isinstance(True, int)` is true, `True == 1`);
  * `re.match(r"^0x[0-9A-Fa-f]\x7b40\x7d$", s)` whose `$` anchor also matches
    just before a single trailing newline;
  * `re.match` raises `TypeError` on a non-string argument; the embedding of
    `validate_token_data` therefore returns `Except` with the exception text;
  * truthiness of values (`if not address`).
The three `fetch_*_with_retry` calls are external collaborators; they are
modelled by an oracle, and every call the code makes is recorded as a
`FetchEvent` so that "performs no fetch" is expressible.
-/

/-- A JSON5 / Python value as produced by `json5.load`. -/
inductive Value where
  | str (s : String)
  | int (n : Int)
  | bool (b : Bool)
  | null
  | list (xs : List Value)
  | dict (xs : List (String × Value))

/-- A Python dict with string keys, in insertion order. -/
abbrev Dict := List (String × Value)

/-- Python `key in data` for a dict. -/
def dictContains (d : Dict) (k : String) : Bool :=
  d.any (fun p => p.1 == k)

/-- Python `data.get(key)`: the first binding of the key, `None` when absent. -/
def dictGet (d : Dict) (k : String) : Value :=
  match d.find? (fun p => p.1 == k) with
  | some p => p.2
  | none => .null

/-- Python truthiness (`bool(v)`). -/
def pyTruthy : Value → Bool
  | .str s => s ≠ ""
  | .int n => n ≠ 0
  | .bool b => b
  | .null => false
  | .list xs => !xs.isEmpty
  | .dict xs => !xs.isEmpty

/-- Python `isinstance(v, str)` (booleans and numbers are not `str`). -/
def isStr : Value → Bool
  | .str _ => true
  | _ => false

/-- Python `isinstance(v, int)`; `bool` is a subclass of `int` in Python. -/
def isIntLike : Value → Bool
  | .int _ => true
  | .bool _ => true
  | _ => false

/-- The integer value of an int-like Python value (`True == 1`, `False == 0`). -/
def pyToInt : Value → Int
  | .int n => n
  | .bool b => if b then 1 else 0
  | _ => 0

/-- Python `v == s` for a string literal `s`: only equal strings compare equal. -/
def pyEqStr (v : Value) (s : String) : Bool :=
  match v with
  | .str t => t == s
  | _ => false

/-- Python `v == n` for an int `n`; booleans compare as `0`/`1`. -/
def pyEqInt (v : Value) (n : Int) : Bool :=
  match v with
  | .int m => m == n
  | .bool b => (if b then (1 : Int) else 0) == n
  | _ => false

/-- The characters Python `str.strip()` removes: the ASCII whitespace and
control separators `\t \n \x0b \x0c \x0d \x1c \x1d \x1e \x1f` and space,
plus the Unicode whitespace U+0085, U+00A0, U+1680, U+2000 to U+200A,
U+2028, U+2029, U+202F, U+205F and U+3000 (CPython's `Py_UNICODE_ISSPACE`
table, the same set `str.isspace()` uses). -/
def isPySpace (c : Char) : Bool :=
  c == ' ' || c == '\t' || c == '\n' || c == '\x0d' || c == '\x0b' || c == '\x0c'
    || ('\x1c' ≤ c && c ≤ '\x1f')
    || c == '\u0085' || c == '\u00A0' || c == '\u1680'
    || ('\u2000' ≤ c && c ≤ '\u200A')
    || c == '\u2028' || c == '\u2029' || c == '\u202F' || c == '\u205F'
    || c == '\u3000'

/-- Python `bool(s.strip())`: the string has a non-whitespace character. -/
def pyStripNonEmpty (s : String) : Bool :=
  s.data.any (fun c => !isPySpace c)

/-- Python `type(v).__name__`. -/
def pyTypeName : Value → String
  | .str _ => "str"
  | .int _ => "int"
  | .bool _ => "bool"
  | .null => "NoneType"
  | .list _ => "list"
  | .dict _ => "dict"

mutual

/-- Python `repr(v)` (element rendering inside containers). -/
def pyRepr : Value → String
  | .str s => "'" ++ s ++ "'"
  | .int n => toString n
  | .bool b => if b then "True" else "False"
  | .null => "None"
  | .list xs => "[" ++ String.intercalate ", " (pyReprList xs) ++ "]"
  | .dict xs => "\x7b" ++ String.intercalate ", " (pyReprPairs xs) ++ "\x7d"

/-- `repr` of the elements of a list. -/
def pyReprList : List Value → List String
  | [] => []
  | v :: vs => pyRepr v :: pyReprList vs

/-- `repr` of the bindings of a dict. -/
def pyReprPairs : List (String × Value) → List String
  | [] => []
  | p :: ps => ("'" ++ p.1 ++ "': " ++ pyRepr p.2) :: pyReprPairs ps

end

/-- Python `str(v)` as used by f-string interpolation. -/
def pyStr : Value → String
  | .str s => s
  | v => pyRepr v

/-- `REQUIRED_FIELDS` from the script. -/
def REQUIRED_FIELDS : List String := ["chainId", "address", "name", "symbol", "decimals"]

/-- `EXPECTED_CHAIN_ID` from the script. -/
def EXPECTED_CHAIN_ID : Int := 143

/-- `MIN_DECIMALS` from the script. -/
def MIN_DECIMALS : Int := 0

/-- `MAX_DECIMALS` from the script. -/
def MAX_DECIMALS : Int := 36

/-- `ZERO_ADDRESS` from the script. -/
def ZERO_ADDRESS : String := "0x0000000000000000000000000000000000000000"

/-- Extension value types appearing in `ALLOWED_EXTENSIONS` (only `str`). -/
inductive ExtType where
  | str

/-- `ALLOWED_EXTENSIONS = \x7b"coinGeckoId": str\x7d` from the script. -/
def ALLOWED_EXTENSIONS : List (String × ExtType) := [("coinGeckoId", .str)]

/-- Python `isinstance(v, t)` for an extension type from the table. -/
def isinstanceOf (v : Value) : ExtType → Bool
  | .str => isStr v

/-- `t.__name__` for an extension type from the table. -/
def extTypeName : ExtType → String
  | .str => "str"

/-- `[0-9A-Fa-f]`: one hexadecimal digit, either case. -/
def hexDigit (c : Char) : Bool :=
  ('0' ≤ c && c ≤ '9') || ('a' ≤ c && c ≤ 'f') || ('A' ≤ c && c ≤ 'F')

/-- Python's `$` anchor (no `re.MULTILINE`): it matches at the end of the
string, or just before a newline that ends the string. -/
def matchDollar : List Char → Bool
  | [] => true
  | [c] => c == '\n'
  | _ => false

/-- Match exactly `n` hex digits and then Python's `$`. -/
def matchHexThenDollar : Nat → List Char → Bool
  | 0, rest => matchDollar rest
  | _ + 1, [] => false
  | n + 1, c :: rest => hexDigit c && matchHexThenDollar n rest

/-- The regex `^0x[0-9A-Fa-f]\x7b40\x7d$` on a list of characters. -/
def isValidAddressData : List Char → Bool
  | c0 :: c1 :: rest => c0 == '0' && c1 == 'x' && matchHexThenDollar 40 rest
  | _ => false

/-- `is_valid_address` from the script:
`bool(re.match(r"^0x[0-9A-Fa-f]\x7b40\x7d$", address))`. -/
def is_valid_address (address : String) : Bool :=
  isValidAddressData address.data

/-- The address format of the specification, on a list of characters:
`0x` followed by exactly 40 hexadecimal digits and nothing else. -/
def specAddressFormatData : List Char → Bool
  | c0 :: c1 :: rest => c0 == '0' && c1 == 'x' && (rest.length == 40 && rest.all hexDigit)
  | _ => false

/-- The address format in the words of the specification: `0x` followed by
exactly 40 hexadecimal digits, case-insensitive, and nothing else. -/
def specAddressFormat (s : String) : Bool :=
  specAddressFormatData s.data

/-- The (address-independent) results of the three `fetch_*_with_retry`
collaborators: an `.error` models the call raising an exception whose display
text is the payload. -/
structure FetchOracle where
  fetch_token_name : Value → Except String String
  fetch_token_symbol : Value → Except String String
  fetch_token_decimals : Value → Except String Int

/-- One RPC fetch performed by the reconciler, with the address it was given. -/
inductive FetchEvent where
  | name (a : Value)
  | symbol (a : Value)
  | decimals (a : Value)

/-- `f"Missing required fields: \x7b', '.join(missing_fields)\x7d"`. -/
def msgMissing (missing : List String) : String :=
  "Missing required fields: " ++ String.intercalate ", " missing

/-- `f"Invalid chainId: expected \x7bEXPECTED_CHAIN_ID\x7d, got \x7bchain_id\x7d"`. -/
def msgChainId (v : Value) : String :=
  "Invalid chainId: expected " ++ (toString EXPECTED_CHAIN_ID ++ (", got " ++ pyStr v))

/-- `f"Invalid address: \x7baddress\x7d"`. -/
def msgAddress (s : String) : String :=
  "Invalid address: " ++ s

/-- `"Invalid name: must be a non-empty string"`. -/
def msgNameInvalid : String :=
  "Invalid name: must be a non-empty string"

/-- `"Invalid symbol: must be a non-empty string"`. -/
def msgSymbolInvalid : String :=
  "Invalid symbol: must be a non-empty string"

/-- `f"Symbol mismatch: folder name is '\x7b...\x7d' but symbol is '\x7b...\x7d'"`. -/
def msgSymbolMismatch (dirName symbol : String) : String :=
  "Symbol mismatch: folder name is '"
    ++ (dirName ++ ("' but symbol is '" ++ (symbol ++ "'")))

/-- `f"Invalid decimals: must be an integer between \x7b0\x7d and \x7b36\x7d"`. -/
def msgDecimalsInvalid : String :=
  "Invalid decimals: must be an integer between "
    ++ (toString MIN_DECIMALS ++ (" and " ++ toString MAX_DECIMALS))

/-- `"Logo file not found"`. -/
def msgLogoMissing : String :=
  "Logo file not found"

/-- `"Invalid extensions: must be a dictionary"`. -/
def msgExtNotDict : String :=
  "Invalid extensions: must be a dictionary"

/-- `f"Invalid type for extension '\x7btag\x7d': expected \x7b...\x7d, got \x7b...\x7d"`. -/
def msgExtType (tag : String) (expected : ExtType) (v : Value) : String :=
  "Invalid type for extension '"
    ++ (tag ++ ("': expected " ++ (extTypeName expected ++ (", got " ++ pyTypeName v))))

/-- `f"Invalid extension tag: \x7btag\x7d. Allowed tags are: \x7ballowed_tags\x7d"`. -/
def msgExtTag (tag : String) : String :=
  "Invalid extension tag: "
    ++ (tag ++ (". Allowed tags are: "
      ++ String.intercalate ", " (ALLOWED_EXTENSIONS.map (fun p => p.1))))

/-- `"Cannot validate on-chain: address is missing"`. -/
def msgOnchainNoAddress : String :=
  "Cannot validate on-chain: address is missing"

/-- `f"Name mismatch: expected '\x7bonchain\x7d', got '\x7bdeclared\x7d'"`. -/
def msgOnchainName (onchain : String) (declared : Value) : String :=
  "Name mismatch: expected '" ++ (onchain ++ ("', got '" ++ (pyStr declared ++ "'")))

/-- `f"Failed to fetch on-chain name: \x7be\x7d"`. -/
def msgFetchNameFailed (e : String) : String :=
  "Failed to fetch on-chain name: " ++ e

/-- `f"Symbol mismatch: expected '\x7bonchain\x7d', got '\x7bdeclared\x7d'"`. -/
def msgOnchainSymbol (onchain : String) (declared : Value) : String :=
  "Symbol mismatch: expected '" ++ (onchain ++ ("', got '" ++ (pyStr declared ++ "'")))

/-- `f"Failed to fetch on-chain symbol: \x7be\x7d"`. -/
def msgFetchSymbolFailed (e : String) : String :=
  "Failed to fetch on-chain symbol: " ++ e

/-- `f"Decimals mismatch: expected \x7bonchain\x7d, got \x7bdeclared\x7d"`. -/
def msgOnchainDecimals (onchain : Int) (declared : Value) : String :=
  "Decimals mismatch: expected " ++ (toString onchain ++ (", got " ++ pyStr declared))

/-- `f"Failed to fetch on-chain decimals: \x7be\x7d"`. -/
def msgFetchDecimalsFailed (e : String) : String :=
  "Failed to fetch on-chain decimals: " ++ e

/-- `validate_onchain_metadata(data, web3)`.  Returns the error strings and
the fetch calls performed, in order.  Each of the three try-blocks records its
fetch, reports an exception as its own error, and otherwise compares the
fetched value with the declared one using Python equality. -/
def validate_onchain_metadata (data : Dict) (o : FetchOracle) :
    List String × List FetchEvent :=
  let address := dictGet data "address"
  if !pyTruthy address then ([msgOnchainNoAddress], [])
  else if pyEqStr address ZERO_ADDRESS then ([], [])
  else
    let nameErrs :=
      match o.fetch_token_name address with
      | .ok onchain =>
          if !pyEqStr (dictGet data "name") onchain then
            [msgOnchainName onchain (dictGet data "name")]
          else []
      | .error e => [msgFetchNameFailed e]
    let symbolErrs :=
      match o.fetch_token_symbol address with
      | .ok onchain =>
          if !pyEqStr (dictGet data "symbol") onchain then
            [msgOnchainSymbol onchain (dictGet data "symbol")]
          else []
      | .error e => [msgFetchSymbolFailed e]
    let decimalsErrs :=
      match o.fetch_token_decimals address with
      | .ok onchain =>
          if !pyEqInt (dictGet data "decimals") onchain then
            [msgOnchainDecimals onchain (dictGet data "decimals")]
          else []
      | .error e => [msgFetchDecimalsFailed e]
    (nameErrs ++ symbolErrs ++ decimalsErrs,
      [.name address, .symbol address, .decimals address])

/-- The `missing_fields` comprehension in `validate_token_data`. -/
def requiredMissing (data : Dict) : List String :=
  REQUIRED_FIELDS.filter (fun f => !dictContains data f)

/-- The chainId block of `validate_token_data`. -/
def chainIdErrors (data : Dict) : List String :=
  let chain_id := dictGet data "chainId"
  if !isIntLike chain_id || !pyEqInt chain_id EXPECTED_CHAIN_ID then
    [msgChainId chain_id]
  else []

/-- The address block of `validate_token_data`: `is_valid_address` calls
`re.match`, which raises `TypeError` when the address value is not a string. -/
def addressErrors (data : Dict) : Except String (List String) :=
  match dictGet data "address" with
  | .str s => .ok (if !is_valid_address s then [msgAddress s] else [])
  | v => .error ("TypeError: expected string or bytes-like object, got '"
      ++ pyTypeName v ++ "'")

/-- The name block of `validate_token_data`. -/
def nameErrors (data : Dict) : List String :=
  match dictGet data "name" with
  | .str s => if !pyStripNonEmpty s then [msgNameInvalid] else []
  | _ => [msgNameInvalid]

/-- The symbol block of `validate_token_data`: the non-empty-string check,
and otherwise the case-sensitive comparison against the directory name. -/
def symbolErrors (data : Dict) (dirName : String) : List String :=
  match dictGet data "symbol" with
  | .str s =>
      if !pyStripNonEmpty s then [msgSymbolInvalid]
      else if s ≠ dirName then [msgSymbolMismatch dirName s]
      else []
  | _ => [msgSymbolInvalid]

/-- The decimals block of `validate_token_data` (`isinstance(decimals, int)`
accepts booleans, which compare as 0/1 against the bounds). -/
def decimalsErrors (data : Dict) : List String :=
  let decimals := dictGet data "decimals"
  if !isIntLike decimals
      || !(MIN_DECIMALS ≤ pyToInt decimals && pyToInt decimals ≤ MAX_DECIMALS) then
    [msgDecimalsInvalid]
  else []

/-- The logo block of `validate_token_data`; `logoExists` stands for
`svg_logo_path.exists() or png_logo_path.exists()`. -/
def logoErrors (logoExists : Bool) : List String :=
  if !logoExists then [msgLogoMissing] else []

/-- The per-binding check of the extensions loop: a whitelisted tag with a
value of the wrong type, or a tag outside `ALLOWED_EXTENSIONS`. -/
def extKeyError (p : String × Value) : Option String :=
  match (ALLOWED_EXTENSIONS.find? (fun q => q.1 == p.1)) with
  | some q => if !isinstanceOf p.2 q.2 then some (msgExtType p.1 q.2 p.2) else none
  | none => some (msgExtTag p.1)

/-- The extensions block of `validate_token_data`. -/
def extensionsErrors (data : Dict) : List String :=
  if dictContains data "extensions" then
    match dictGet data "extensions" with
    | .dict exts => exts.filterMap extKeyError
    | _ => [msgExtNotDict]
  else []

/-- `validate_token_data(data, token_dir_path, web3)`.  A nonempty
`missing_fields` short-circuits with the single missing-fields message;
otherwise the blocks run in source order and their errors are concatenated,
followed by the on-chain errors.  The second component records the RPC
fetches performed.  `.error` models an uncaught Python exception escaping the
function (the address block's `TypeError`). -/
def validate_token_data (data : Dict) (dirName : String) (logoExists : Bool)
    (o : FetchOracle) : Except String (List String × List FetchEvent) :=
  let missing := requiredMissing data
  if !missing.isEmpty then .ok ([msgMissing missing], [])
  else
    match addressErrors data with
    | .error e => .error e
    | .ok addrErrs =>
        let onchain := validate_onchain_metadata data o
        .ok (chainIdErrors data ++ addrErrs ++ nameErrors data
              ++ symbolErrors data dirName ++ decimalsErrors data
              ++ logoErrors logoExists ++ extensionsErrors data ++ onchain.1,
             onchain.2)

/-- The per-token loop of `main`: each entry is the outcome of
`validate_token_directory` for one directory (`.error` models an exception
escaping it, which aborts the loop).  Returns `all_valid`. -/
def runTokens : List (Except String (List String)) → Except String Bool
  | [] => .ok true
  | .error e :: _ => .error e
  | .ok errs :: rest => (runTokens rest).map (fun b => errs.isEmpty && b)

/-- The control flow of `main`: a failed directory lookup returns 1
(`FileNotFoundError` handler); an empty directory list returns 0 before any
connection attempt; a failed connection returns 1; an exception escaping the
token loop is caught by the top-level `except Exception` and returns 1;
otherwise the exit status reflects `all_valid`. -/
def mainModel (dataDir : Except String Unit)
    (dirOutcomes : List (Except String (List String)))
    (conn : Except String Unit) : Int :=
  match dataDir with
  | .error _ => 1
  | .ok _ =>
    if dirOutcomes.isEmpty then 0
    else
      match conn with
      | .error _ => 1
      | .ok _ =>
          match runTokens dirOutcomes with
          | .error _ => 1
          | .ok allValid => if allValid then 0 else 1

/-- Python `isinstance(v, dict)`. -/
def isDict : Value → Bool
  | .dict _ => true
  | _ => false

/-!
### Conclusion predicates for the claims

Each predicate states, over the embedded validator, what one claim asserts;
the claim theorems prove them under the claims' premises.
-/

/-- What the address claim asserts about one validator run: the run returns
normally, the invalid-address message for the given address string is
reported exactly when the regex rejects it, and the regex accepts exactly
the spec format possibly followed by one trailing newline. -/
def addressReportProp (data : Dict) (dirName : String) (logoExists : Bool)
    (o : FetchOracle) (s : String) : Prop :=
  ∃ es evs, validate_token_data data dirName logoExists o = .ok (es, evs) ∧
    (msgAddress s ∈ es ↔ is_valid_address s = false) ∧
    (is_valid_address s = true ↔
      specAddressFormat s = true ∨
      ∃ t : String, s = t ++ "\n" ∧ specAddressFormat t = true)

/-- What the symbol claim asserts about one validator run: the run returns
normally; for a string symbol that is non-empty after stripping, the
symbol/directory mismatch message is reported exactly when the symbol
differs (case-sensitively) from the directory name; a whitespace-only or
non-string symbol gets the distinct non-empty-string message instead. -/
def symbolReportProp (data : Dict) (dirName : String) (logoExists : Bool)
    (o : FetchOracle) : Prop :=
  ∃ es evs, validate_token_data data dirName logoExists o = .ok (es, evs) ∧
    (∀ s, dictGet data "symbol" = .str s → pyStripNonEmpty s = true →
      (msgSymbolMismatch dirName s ∈ es ↔ s ≠ dirName)) ∧
    (∀ s, dictGet data "symbol" = .str s → pyStripNonEmpty s = false →
      msgSymbolInvalid ∈ es) ∧
    (isStr (dictGet data "symbol") = false → msgSymbolInvalid ∈ es)

/-- What the decimals claim (amended) asserts about one validator run: the
run returns normally and the decimals message is reported exactly when the
field is neither an integer within `[MIN_DECIMALS, MAX_DECIMALS]` nor a
boolean (Python's `bool` passes `isinstance(_, int)` and compares as 0/1,
inside the bounds). -/
def decimalsReportProp (data : Dict) (dirName : String) (logoExists : Bool)
    (o : FetchOracle) : Prop :=
  ∃ es evs, validate_token_data data dirName logoExists o = .ok (es, evs) ∧
    (msgDecimalsInvalid ∈ es ↔
      ¬((∃ n, dictGet data "decimals" = .int n ∧ MIN_DECIMALS ≤ n ∧ n ≤ MAX_DECIMALS) ∨
        (∃ b, dictGet data "decimals" = .bool b)))

/-- What the reconciliation claim asserts for a non-null, truthy address:
each fetch happens exactly once (the event trace), a failed fetch surfaces
its own message whatever the other two oracles did, a fetched value that
differs from the declared one (Python equality) surfaces the mismatch naming
both values, and at most three messages result. -/
def reconcileFetchProp (data : Dict) (o : FetchOracle) : Prop :=
  let a := dictGet data "address"
  let r := validate_onchain_metadata data o
  r.2 = [.name a, .symbol a, .decimals a] ∧
  r.1.length ≤ 3 ∧
  (∀ e, o.fetch_token_name a = .error e → msgFetchNameFailed e ∈ r.1) ∧
  (∀ n, o.fetch_token_name a = .ok n → pyEqStr (dictGet data "name") n = false →
    msgOnchainName n (dictGet data "name") ∈ r.1) ∧
  (∀ e, o.fetch_token_symbol a = .error e → msgFetchSymbolFailed e ∈ r.1) ∧
  (∀ n, o.fetch_token_symbol a = .ok n → pyEqStr (dictGet data "symbol") n = false →
    msgOnchainSymbol n (dictGet data "symbol") ∈ r.1) ∧
  (∀ e, o.fetch_token_decimals a = .error e → msgFetchDecimalsFailed e ∈ r.1) ∧
  (∀ d, o.fetch_token_decimals a = .ok d → pyEqInt (dictGet data "decimals") d = false →
    msgOnchainDecimals d (dictGet data "decimals") ∈ r.1)

/-- What the extensions claim asserts: when the field holds a mapping, the
extensions block reports exactly one message per offending binding, in
order — an invalid-type message for a whitelisted key (only `coinGeckoId`,
typed `str`) with a wrongly typed value, an invalid-tag message for any
other key, and nothing for a correctly typed whitelisted key; when the
field holds a non-mapping, it reports exactly the one dictionary message. -/
def extensionsReportProp (data : Dict) : Prop :=
  (∀ exts, dictGet data "extensions" = .dict exts →
    extensionsErrors data =
      exts.filterMap (fun p =>
        if p.1 = "coinGeckoId" then
          if isStr p.2 then none else some (msgExtType p.1 .str p.2)
        else some (msgExtTag p.1))) ∧
  (isDict (dictGet data "extensions") = false →
    extensionsErrors data = [msgExtNotDict])

/-!
### Concrete descriptors and oracles used by witnesses and counterexamples
-/

/-- A well-formed 40-hex-digit address. -/
def addrHexA : String := "0xaaaaaaaaaaaaaaaaaaaaaaaaaaaaaaaaaaaaaaaa"

/-- The same address with a single trailing newline. -/
def addrNL : String := "0xaaaaaaaaaaaaaaaaaaaaaaaaaaaaaaaaaaaaaaaa\n"

/-- An oracle whose chain data matches the concrete descriptors below. -/
def oracleHappy : FetchOracle :=
  ⟨fun _ => .ok "Tok", fun _ => .ok "TOK", fun _ => .ok 18⟩

/-- An oracle whose name fetch raises and whose symbol disagrees. -/
def oracleDown : FetchOracle :=
  ⟨fun _ => .error "connection timed out", fun _ => .ok "WRONG", fun _ => .ok 18⟩

/-- An oracle on which every fetch raises. -/
def oracleDead : FetchOracle :=
  ⟨fun _ => .error "boom", fun _ => .error "boom", fun _ => .error "boom"⟩

/-- A descriptor whose address carries a trailing newline, otherwise valid. -/
def dataC1 : Dict :=
  [("chainId", .int 143), ("address", .str addrNL), ("name", .str "Tok"),
   ("symbol", .str "TOK"), ("decimals", .int 18)]

/-- A descriptor with every required field present but an integer address. -/
def dataC2 : Dict :=
  [("chainId", .int 143), ("address", .int 5), ("name", .str "Tok"),
   ("symbol", .str "TOK"), ("decimals", .int 18)]

/-- A null-address descriptor with ill-typed name/symbol/decimals. -/
def dataC4 : Dict :=
  [("chainId", .int 143), ("address", .str ZERO_ADDRESS), ("name", .int 7),
   ("symbol", .null), ("decimals", .str "x")]

/-- A descriptor with a plain non-null address. -/
def dataC5 : Dict :=
  [("address", .str addrHexA), ("name", .str "Tok"), ("symbol", .str "TOK"),
   ("decimals", .int 18)]

/-- A valid descriptor whose symbol differs from the directory only by case. -/
def dataC7 : Dict :=
  [("chainId", .int 143), ("address", .str addrHexA), ("name", .str "Tok"),
   ("symbol", .str "Tok"), ("decimals", .int 18)]

/-- A null-address descriptor whose decimals field is the boolean `true`. -/
def dataC8 : Dict :=
  [("chainId", .int 143), ("address", .str ZERO_ADDRESS), ("name", .str "Tok"),
   ("symbol", .str "TOK"), ("decimals", .bool true)]

/-- A descriptor whose extensions hold a wrongly typed whitelisted key and
an unknown key. -/
def dataC9 : Dict :=
  [("extensions", .dict [("coinGeckoId", .int 123), ("foo", .str "bar")])]

/-- A descriptor whose address is present but empty. -/
def dataC10 : Dict :=
  [("chainId", .int 143), ("address", .str ""), ("name", .str "Tok"),
   ("symbol", .str "TOK"), ("decimals", .int 18)]

/-!
### Distinctness of error messages

Each message family opens with a distinct literal, so a character at index
0, 8 or 17 separates any two families.  These lemmas let the mem-iff claims
rule a target message out of every other validation block.
-/

/-- Two appends with concrete heads differing at char index `k` are distinct. -/
theorem ne_of_ne_at (k : Nat) (p q s t : String)
    (hp : k < p.data.length) (hq : k < q.data.length)
    (h : p.data[k]? ≠ q.data[k]?) : p ++ s ≠ q ++ t := by
  intro he
  apply h
  have hd : (p ++ s).data[k]? = (q ++ t).data[k]? := by rw [he]
  rwa [String.data_append, String.data_append, List.getElem?_append_left hp,
    List.getElem?_append_left hq] at hd

/-- An append with a concrete head differing from a constant at index `k`. -/
theorem ne_of_ne_at_const (k : Nat) (p s c : String)
    (hp : k < p.data.length) (h : p.data[k]? ≠ c.data[k]?) : p ++ s ≠ c := by
  intro he
  apply h
  have hd : (p ++ s).data[k]? = c.data[k]? := by rw [he]
  rwa [String.data_append, List.getElem?_append_left hp] at hd

/-- Everything the chainId block can report. -/
theorem mem_chainIdErrors (m : String) (data : Dict) (h : m ∈ chainIdErrors data) :
    ∃ v, m = msgChainId v := by
  unfold chainIdErrors at h
  dsimp only at h
  split at h <;> simp_all

/-- Everything the name block can report. -/
theorem mem_nameErrors (m : String) (data : Dict) (h : m ∈ nameErrors data) :
    m = msgNameInvalid := by
  unfold nameErrors at h
  split at h
  · split at h <;> simp_all
  · simp_all

/-- Everything the symbol block can report. -/
theorem mem_symbolErrors (m : String) (data : Dict) (dir : String)
    (h : m ∈ symbolErrors data dir) :
    m = msgSymbolInvalid ∨ ∃ s, m = msgSymbolMismatch dir s := by
  unfold symbolErrors at h
  split at h
  · split at h
    · simp_all
    · split at h <;> simp_all
  · simp_all

/-- Everything the decimals block can report. -/
theorem mem_decimalsErrors (m : String) (data : Dict) (h : m ∈ decimalsErrors data) :
    m = msgDecimalsInvalid := by
  unfold decimalsErrors at h
  dsimp only at h
  split at h <;> simp_all

/-- Everything the logo block can report. -/
theorem mem_logoErrors (m : String) (lg : Bool) (h : m ∈ logoErrors lg) :
    m = msgLogoMissing := by
  unfold logoErrors at h
  split at h <;> simp_all

/-- Everything one extensions binding can report. -/
theorem extKeyError_shape (m : String) (p : String × Value)
    (h : extKeyError p = some m) :
    (∃ t v, m = msgExtType t .str v) ∨ ∃ t, m = msgExtTag t := by
  unfold extKeyError at h
  split at h
  · split at h
    · rename_i q hq _
      refine .inl ⟨p.1, p.2, ?_⟩
      cases hq2 : q.2
      injection h with h
      subst h
      rfl
    · simp_all
  · injection h with h
    exact .inr ⟨p.1, h.symm⟩

/-- Everything the extensions block can report. -/
theorem mem_extensionsErrors (m : String) (data : Dict)
    (h : m ∈ extensionsErrors data) :
    m = msgExtNotDict ∨ (∃ t v, m = msgExtType t .str v) ∨ ∃ t, m = msgExtTag t := by
  unfold extensionsErrors at h
  split at h
  · split at h
    · rename_i exts _
      rw [List.mem_filterMap] at h
      obtain ⟨p, _, hp⟩ := h
      exact .inr (extKeyError_shape m p hp)
    · simp_all
  · simp_all

/-- Everything the on-chain reconciler can report. -/
theorem mem_onchainErrors (m : String) (data : Dict) (o : FetchOracle)
    (h : m ∈ (validate_onchain_metadata data o).1) :
    m = msgOnchainNoAddress
      ∨ (∃ a b, m = msgOnchainName a b) ∨ (∃ e, m = msgFetchNameFailed e)
      ∨ (∃ a b, m = msgOnchainSymbol a b) ∨ (∃ e, m = msgFetchSymbolFailed e)
      ∨ (∃ a b, m = msgOnchainDecimals a b) ∨ (∃ e, m = msgFetchDecimalsFailed e) := by
  unfold validate_onchain_metadata at h
  dsimp only at h
  split at h
  · simp_all
  · split at h
    · simp_all
    · simp only [List.mem_append] at h
      rcases h with (h | h) | h
      · rcases hf : FetchOracle.fetch_token_name o (dictGet data "address") with n | e <;>
          rw [hf] at h
        · split at h <;> simp_all
        · simp_all
      · rcases hf : FetchOracle.fetch_token_symbol o (dictGet data "address") with n | e <;>
          rw [hf] at h
        · split at h <;> simp_all
        · simp_all
      · rcases hf : FetchOracle.fetch_token_decimals o (dictGet data "address") with n | e <;>
          rw [hf] at h
        · split at h <;> simp_all
        · simp_all

theorem matchHexThenDollar_iff (n : Nat) (rest : List Char) :
    matchHexThenDollar n rest = true ↔
      (rest.length = n ∧ rest.all hexDigit = true) ∨
      (∃ ds, rest = ds ++ ['\n'] ∧ ds.length = n ∧ ds.all hexDigit = true) := by
  induction n generalizing rest with
  | zero =>
    cases rest with
    | nil =>
      simp [matchHexThenDollar, matchDollar]
    | cons c tl =>
      cases tl with
      | nil =>
        constructor
        · intro hc
          have : c = '\n' := by simpa [matchHexThenDollar, matchDollar] using hc
          subst this
          exact .inr ⟨[], rfl, rfl, rfl⟩
        · rintro (⟨h, -⟩ | ⟨ds, hds, hlen, -⟩)
          · simp at h
          · have : ds = [] := List.length_eq_zero.mp hlen
            subst this
            simp only [List.nil_append, List.cons.injEq] at hds
            simp [matchHexThenDollar, matchDollar, hds.1]
      | cons d tl2 =>
        constructor
        · intro h
          simp [matchHexThenDollar, matchDollar] at h
        · rintro (⟨h, -⟩ | ⟨ds, hds, hlen, -⟩)
          · simp at h
          · have : ds = [] := List.length_eq_zero.mp hlen
            subst this
            simp at hds
  | succ n ih =>
    cases rest with
    | nil =>
      constructor
      · intro h
        simp [matchHexThenDollar] at h
      · rintro (⟨h, -⟩ | ⟨ds, hds, -, -⟩)
        · simp at h
        · exact absurd hds.symm (by simp)
    | cons c tl =>
      have hstep : matchHexThenDollar (n + 1) (c :: tl) =
          (hexDigit c && matchHexThenDollar n tl) := rfl
      rw [hstep, Bool.and_eq_true, ih tl]
      constructor
      · rintro ⟨hc, (⟨hlen, hall⟩ | ⟨ds, hds, hlen, hall⟩)⟩
        · exact .inl ⟨by simp [hlen], by simp [List.all_cons, hc, hall]⟩
        · exact .inr ⟨c :: ds, by simp [hds], by simp [hlen],
            by simp [List.all_cons, hc, hall]⟩
      · rintro (⟨hlen, hall⟩ | ⟨ds, hds, hlen, hall⟩)
        · rw [List.all_cons, Bool.and_eq_true] at hall
          exact ⟨hall.1, .inl ⟨by simpa using hlen, hall.2⟩⟩
        · cases ds with
          | nil => simp at hlen
          | cons d ds2 =>
            simp only [List.cons_append, List.cons.injEq] at hds
            obtain ⟨rfl, htl⟩ := hds
            rw [List.all_cons, Bool.and_eq_true] at hall
            exact ⟨hall.1, .inr ⟨ds2, htl, by simpa using hlen, hall.2⟩⟩

theorem isValidAddressData_iff (l : List Char) :
    isValidAddressData l = true ↔
      specAddressFormatData l = true ∨
      ∃ ds, l = ds ++ ['\n'] ∧ specAddressFormatData ds = true := by
  cases l with
  | nil =>
    constructor
    · intro h
      simp [isValidAddressData] at h
    · rintro (h | ⟨ds, hds, -⟩)
      · simp [specAddressFormatData] at h
      · exact absurd hds.symm (by simp)
  | cons c0 tl =>
    cases tl with
    | nil =>
      constructor
      · intro h
        simp [isValidAddressData] at h
      · rintro (h | ⟨ds, hds, hspec⟩)
        · simp [specAddressFormatData] at h
        · cases ds with
          | nil => simp [specAddressFormatData] at hspec
          | cons a b =>
            rw [List.cons_append] at hds
            have hb : b ++ ['\n'] = [] := (List.cons.injEq _ _ _ _ ▸ hds).2.symm
            exact absurd hb (by simp)
    | cons c1 rest =>
      have hv : isValidAddressData (c0 :: c1 :: rest) =
          (c0 == '0' && c1 == 'x' && matchHexThenDollar 40 rest) := rfl
      have hs : specAddressFormatData (c0 :: c1 :: rest) =
          (c0 == '0' && c1 == 'x' && (rest.length == 40 && rest.all hexDigit)) := rfl
      rw [hv]
      simp only [Bool.and_eq_true, beq_iff_eq, matchHexThenDollar_iff]
      constructor
      · rintro ⟨⟨hc0, hc1⟩, (⟨hlen, hall⟩ | ⟨ds, hds, hlen, hall⟩)⟩
        · exact .inl (by rw [hs]; simp [hc0, hc1, hlen, hall])
        · refine .inr ⟨c0 :: c1 :: ds, by simp [hds], ?_⟩
          have hs2 : specAddressFormatData (c0 :: c1 :: ds) =
              (c0 == '0' && c1 == 'x' && (ds.length == 40 && ds.all hexDigit)) := rfl
          rw [hs2]
          simp [hc0, hc1, hlen, hall]
      · rintro (h | ⟨ds, hds, hspec⟩)
        · rw [hs] at h
          simp only [Bool.and_eq_true, beq_iff_eq] at h
          obtain ⟨⟨hc0, hc1⟩, hlen, hall⟩ := h
          exact ⟨⟨hc0, hc1⟩, .inl ⟨by simpa using hlen, hall⟩⟩
        · rcases ds with - | ⟨d0, - | ⟨d1, rs⟩⟩
          · simp [specAddressFormatData] at hspec
          · simp [specAddressFormatData] at hspec
          · have hs3 : specAddressFormatData (d0 :: d1 :: rs) =
                (d0 == '0' && d1 == 'x' && (rs.length == 40 && rs.all hexDigit)) := rfl
            rw [hs3] at hspec
            simp only [Bool.and_eq_true, beq_iff_eq] at hspec
            obtain ⟨⟨hd0, hd1⟩, hlen, hall⟩ := hspec
            simp only [List.cons_append, List.cons.injEq] at hds
            obtain ⟨rfl, rfl, hrest⟩ := hds
            exact ⟨⟨hd0, hd1⟩, .inr ⟨rs, hrest, by simpa using hlen, hall⟩⟩

theorem data_append_newline (t : String) : (t ++ "\n").data = t.data ++ ['\n'] :=
  String.data_append t "\n"

theorem is_valid_address_iff (s : String) :
    is_valid_address s = true ↔
      specAddressFormat s = true ∨
      ∃ t : String, s = t ++ "\n" ∧ specAddressFormat t = true := by
  unfold is_valid_address specAddressFormat
  rw [isValidAddressData_iff]
  constructor
  · rintro (h | ⟨ds, hds, hspec⟩)
    · exact .inl h
    · refine .inr ⟨String.mk ds, ?_, hspec⟩
      apply String.ext
      rw [data_append_newline]
      exact hds
  · rintro (h | ⟨t, rfl, hspec⟩)
    · exact .inl h
    · exact .inr ⟨t.data, data_append_newline t, hspec⟩

/-- With no missing field and a string address, `validate_token_data`
returns normally and its error list is the concatenation of the blocks in
source order. -/
theorem validate_token_data_ok (data : Dict) (dirName : String) (logoExists : Bool)
    (o : FetchOracle) (s : String)
    (hmiss : requiredMissing data = [])
    (haddr : dictGet data "address" = .str s) :
    validate_token_data data dirName logoExists o =
      .ok (chainIdErrors data
            ++ (if !is_valid_address s then [msgAddress s] else [])
            ++ nameErrors data ++ symbolErrors data dirName ++ decimalsErrors data
            ++ logoErrors logoExists ++ extensionsErrors data
            ++ (validate_onchain_metadata data o).1,
           (validate_onchain_metadata data o).2) := by
  unfold validate_token_data addressErrors
  rw [haddr, hmiss]
  simp

/-- `all_valid` is true exactly when every directory outcome is a clean
(exception-free) empty error list. -/
theorem runTokens_ok_true_iff (l : List (Except String (List String))) :
    runTokens l = .ok true ↔ ∀ r ∈ l, r = .ok ([] : List String) := by
  induction l with
  | nil => simp [runTokens]
  | cons x rest ih =>
    cases x with
    | error e => simp [runTokens]
    | ok errs =>
      simp only [runTokens, List.mem_cons]
      constructor
      · intro h
        rcases hr : runTokens rest with e | b <;> rw [hr] at h
        · exact absurd h (by simp [Except.map])
        · simp only [Except.map, Except.ok.injEq, Bool.and_eq_true] at h
          obtain ⟨h1, h2⟩ := h
          rw [h2] at hr
          intro r hrm
          rcases hrm with rfl | hrm
          · rw [List.isEmpty_iff] at h1
            rw [h1]
          · exact (ih.mp hr) r hrm
      · intro h
        have hx : errs = [] := by
          have := h (.ok errs) (.inl rfl)
          injection this
        have hrest : runTokens rest = .ok true :=
          ih.mpr (fun r hr => h r (.inr hr))
        rw [hrest, hx]
        rfl

/-- The invalid-address message is not a chainId message. -/
theorem msgAddress_ne_chain (s : String) (v : Value) : msgAddress s ≠ msgChainId v :=
  ne_of_ne_at 8 "Invalid address: " "Invalid chainId: expected " s
    (toString EXPECTED_CHAIN_ID ++ (", got " ++ pyStr v)) (by decide) (by decide) (by decide)

/-- The invalid-address message is not the invalid-name message. -/
theorem msgAddress_ne_nameInvalid (s : String) : msgAddress s ≠ msgNameInvalid :=
  ne_of_ne_at_const 8 "Invalid address: " s msgNameInvalid (by decide) (by decide)

/-- The invalid-address message is not the invalid-symbol message. -/
theorem msgAddress_ne_symbolInvalid (s : String) : msgAddress s ≠ msgSymbolInvalid :=
  ne_of_ne_at_const 8 "Invalid address: " s msgSymbolInvalid (by decide) (by decide)

/-- The invalid-address message is not a symbol/directory mismatch message. -/
theorem msgAddress_ne_symbolMismatch (s d t : String) :
    msgAddress s ≠ msgSymbolMismatch d t :=
  ne_of_ne_at 0 "Invalid address: " "Symbol mismatch: folder name is '" s
    (d ++ ("' but symbol is '" ++ (t ++ "'"))) (by decide) (by decide) (by decide)

/-- The invalid-address message is not the invalid-decimals message. -/
theorem msgAddress_ne_decimalsInvalid (s : String) : msgAddress s ≠ msgDecimalsInvalid :=
  ne_of_ne_at_const 8 "Invalid address: " s msgDecimalsInvalid (by decide) (by decide)

/-- The invalid-address message is not the missing-logo message. -/
theorem msgAddress_ne_logo (s : String) : msgAddress s ≠ msgLogoMissing :=
  ne_of_ne_at_const 0 "Invalid address: " s msgLogoMissing (by decide) (by decide)

/-- The invalid-address message is not the extensions-dictionary message. -/
theorem msgAddress_ne_extNotDict (s : String) : msgAddress s ≠ msgExtNotDict :=
  ne_of_ne_at_const 8 "Invalid address: " s msgExtNotDict (by decide) (by decide)

/-- The invalid-address message is not an extension-type message. -/
theorem msgAddress_ne_extType (s t : String) (ty : ExtType) (v : Value) :
    msgAddress s ≠ msgExtType t ty v :=
  ne_of_ne_at 8 "Invalid address: " "Invalid type for extension '" s
    (t ++ ("': expected " ++ (extTypeName ty ++ (", got " ++ pyTypeName v))))
    (by decide) (by decide) (by decide)

/-- The invalid-address message is not an extension-tag message. -/
theorem msgAddress_ne_extTag (s t : String) : msgAddress s ≠ msgExtTag t :=
  ne_of_ne_at 8 "Invalid address: " "Invalid extension tag: " s
    (t ++ (". Allowed tags are: "
      ++ String.intercalate ", " (ALLOWED_EXTENSIONS.map (fun p => p.1))))
    (by decide) (by decide) (by decide)

/-- The invalid-address message is not the missing-address message. -/
theorem msgAddress_ne_onchainNoAddress (s : String) : msgAddress s ≠ msgOnchainNoAddress :=
  ne_of_ne_at_const 0 "Invalid address: " s msgOnchainNoAddress (by decide) (by decide)

/-- The invalid-address message is not an on-chain name mismatch message. -/
theorem msgAddress_ne_onchainName (s a : String) (b : Value) :
    msgAddress s ≠ msgOnchainName a b :=
  ne_of_ne_at 0 "Invalid address: " "Name mismatch: expected '" s
    (a ++ ("', got '" ++ (pyStr b ++ "'"))) (by decide) (by decide) (by decide)

/-- The invalid-address message is not a name fetch failure message. -/
theorem msgAddress_ne_fetchName (s e : String) : msgAddress s ≠ msgFetchNameFailed e :=
  ne_of_ne_at 0 "Invalid address: " "Failed to fetch on-chain name: " s e
    (by decide) (by decide) (by decide)

/-- The invalid-address message is not an on-chain symbol mismatch message. -/
theorem msgAddress_ne_onchainSymbol (s a : String) (b : Value) :
    msgAddress s ≠ msgOnchainSymbol a b :=
  ne_of_ne_at 0 "Invalid address: " "Symbol mismatch: expected '" s
    (a ++ ("', got '" ++ (pyStr b ++ "'"))) (by decide) (by decide) (by decide)

/-- The invalid-address message is not a symbol fetch failure message. -/
theorem msgAddress_ne_fetchSymbol (s e : String) : msgAddress s ≠ msgFetchSymbolFailed e :=
  ne_of_ne_at 0 "Invalid address: " "Failed to fetch on-chain symbol: " s e
    (by decide) (by decide) (by decide)

/-- The invalid-address message is not an on-chain decimals mismatch message. -/
theorem msgAddress_ne_onchainDecimals (s : String) (a : Int) (b : Value) :
    msgAddress s ≠ msgOnchainDecimals a b :=
  ne_of_ne_at 0 "Invalid address: " "Decimals mismatch: expected " s
    (toString a ++ (", got " ++ pyStr b)) (by decide) (by decide) (by decide)

/-- The invalid-address message is not a decimals fetch failure message. -/
theorem msgAddress_ne_fetchDecimals (s e : String) : msgAddress s ≠ msgFetchDecimalsFailed e :=
  ne_of_ne_at 0 "Invalid address: " "Failed to fetch on-chain decimals: " s e
    (by decide) (by decide) (by decide)

/-- The symbol/directory mismatch message is not a chainId message. -/
theorem msgSymbolMismatch_ne_chain (d t : String) (v : Value) :
    msgSymbolMismatch d t ≠ msgChainId v :=
  ne_of_ne_at 0 "Symbol mismatch: folder name is '" "Invalid chainId: expected "
    (d ++ ("' but symbol is '" ++ (t ++ "'")))
    (toString EXPECTED_CHAIN_ID ++ (", got " ++ pyStr v)) (by decide) (by decide) (by decide)

/-- The symbol/directory mismatch message is not the invalid-name message. -/
theorem msgSymbolMismatch_ne_nameInvalid (d t : String) :
    msgSymbolMismatch d t ≠ msgNameInvalid :=
  ne_of_ne_at_const 0 "Symbol mismatch: folder name is '"
    (d ++ ("' but symbol is '" ++ (t ++ "'"))) msgNameInvalid (by decide) (by decide)

/-- The symbol/directory mismatch message is not the invalid-decimals message. -/
theorem msgSymbolMismatch_ne_decimalsInvalid (d t : String) :
    msgSymbolMismatch d t ≠ msgDecimalsInvalid :=
  ne_of_ne_at_const 0 "Symbol mismatch: folder name is '"
    (d ++ ("' but symbol is '" ++ (t ++ "'"))) msgDecimalsInvalid (by decide) (by decide)

/-- The symbol/directory mismatch message is not the missing-logo message. -/
theorem msgSymbolMismatch_ne_logo (d t : String) :
    msgSymbolMismatch d t ≠ msgLogoMissing :=
  ne_of_ne_at_const 0 "Symbol mismatch: folder name is '"
    (d ++ ("' but symbol is '" ++ (t ++ "'"))) msgLogoMissing (by decide) (by decide)

/-- The symbol/directory mismatch message is not the extensions-dictionary message. -/
theorem msgSymbolMismatch_ne_extNotDict (d t : String) :
    msgSymbolMismatch d t ≠ msgExtNotDict :=
  ne_of_ne_at_const 0 "Symbol mismatch: folder name is '"
    (d ++ ("' but symbol is '" ++ (t ++ "'"))) msgExtNotDict (by decide) (by decide)

/-- The symbol/directory mismatch message is not an extension-type message. -/
theorem msgSymbolMismatch_ne_extType (d t u : String) (ty : ExtType) (v : Value) :
    msgSymbolMismatch d t ≠ msgExtType u ty v :=
  ne_of_ne_at 0 "Symbol mismatch: folder name is '" "Invalid type for extension '"
    (d ++ ("' but symbol is '" ++ (t ++ "'")))
    (u ++ ("': expected " ++ (extTypeName ty ++ (", got " ++ pyTypeName v))))
    (by decide) (by decide) (by decide)

/-- The symbol/directory mismatch message is not an extension-tag message. -/
theorem msgSymbolMismatch_ne_extTag (d t u : String) :
    msgSymbolMismatch d t ≠ msgExtTag u :=
  ne_of_ne_at 0 "Symbol mismatch: folder name is '" "Invalid extension tag: "
    (d ++ ("' but symbol is '" ++ (t ++ "'")))
    (u ++ (". Allowed tags are: "
      ++ String.intercalate ", " (ALLOWED_EXTENSIONS.map (fun p => p.1))))
    (by decide) (by decide) (by decide)

/-- The symbol/directory mismatch message is not the missing-address message. -/
theorem msgSymbolMismatch_ne_onchainNoAddress (d t : String) :
    msgSymbolMismatch d t ≠ msgOnchainNoAddress :=
  ne_of_ne_at_const 0 "Symbol mismatch: folder name is '"
    (d ++ ("' but symbol is '" ++ (t ++ "'"))) msgOnchainNoAddress (by decide) (by decide)

/-- The symbol/directory mismatch message is not an on-chain name mismatch. -/
theorem msgSymbolMismatch_ne_onchainName (d t a : String) (b : Value) :
    msgSymbolMismatch d t ≠ msgOnchainName a b :=
  ne_of_ne_at 0 "Symbol mismatch: folder name is '" "Name mismatch: expected '"
    (d ++ ("' but symbol is '" ++ (t ++ "'")))
    (a ++ ("', got '" ++ (pyStr b ++ "'"))) (by decide) (by decide) (by decide)

/-- The symbol/directory mismatch message is not a name fetch failure. -/
theorem msgSymbolMismatch_ne_fetchName (d t e : String) :
    msgSymbolMismatch d t ≠ msgFetchNameFailed e :=
  ne_of_ne_at 0 "Symbol mismatch: folder name is '" "Failed to fetch on-chain name: "
    (d ++ ("' but symbol is '" ++ (t ++ "'"))) e (by decide) (by decide) (by decide)

/-- The symbol/directory mismatch message differs from the on-chain symbol
mismatch message at character 17 (`folder` versus `expected`). -/
theorem msgSymbolMismatch_ne_onchainSymbol (d t a : String) (b : Value) :
    msgSymbolMismatch d t ≠ msgOnchainSymbol a b :=
  ne_of_ne_at 17 "Symbol mismatch: folder name is '" "Symbol mismatch: expected '"
    (d ++ ("' but symbol is '" ++ (t ++ "'")))
    (a ++ ("', got '" ++ (pyStr b ++ "'"))) (by decide) (by decide) (by decide)

/-- The symbol/directory mismatch message is not a symbol fetch failure. -/
theorem msgSymbolMismatch_ne_fetchSymbol (d t e : String) :
    msgSymbolMismatch d t ≠ msgFetchSymbolFailed e :=
  ne_of_ne_at 0 "Symbol mismatch: folder name is '" "Failed to fetch on-chain symbol: "
    (d ++ ("' but symbol is '" ++ (t ++ "'"))) e (by decide) (by decide) (by decide)

/-- The symbol/directory mismatch message is not an on-chain decimals mismatch. -/
theorem msgSymbolMismatch_ne_onchainDecimals (d t : String) (a : Int) (b : Value) :
    msgSymbolMismatch d t ≠ msgOnchainDecimals a b :=
  ne_of_ne_at 0 "Symbol mismatch: folder name is '" "Decimals mismatch: expected "
    (d ++ ("' but symbol is '" ++ (t ++ "'")))
    (toString a ++ (", got " ++ pyStr b)) (by decide) (by decide) (by decide)

/-- The symbol/directory mismatch message is not a decimals fetch failure. -/
theorem msgSymbolMismatch_ne_fetchDecimals (d t e : String) :
    msgSymbolMismatch d t ≠ msgFetchDecimalsFailed e :=
  ne_of_ne_at 0 "Symbol mismatch: folder name is '" "Failed to fetch on-chain decimals: "
    (d ++ ("' but symbol is '" ++ (t ++ "'"))) e (by decide) (by decide) (by decide)

/-- The invalid-decimals message is not a chainId message. -/
theorem msgDecimalsInvalid_ne_chain (v : Value) : msgDecimalsInvalid ≠ msgChainId v :=
  (ne_of_ne_at_const 8 "Invalid chainId: expected "
    (toString EXPECTED_CHAIN_ID ++ (", got " ++ pyStr v)) msgDecimalsInvalid
    (by decide) (by decide)).symm

/-- The invalid-decimals message is not the invalid-name message. -/
theorem msgDecimalsInvalid_ne_nameInvalid : msgDecimalsInvalid ≠ msgNameInvalid := by
  decide

/-- The invalid-decimals message is not the invalid-symbol message. -/
theorem msgDecimalsInvalid_ne_symbolInvalid : msgDecimalsInvalid ≠ msgSymbolInvalid := by
  decide

/-- The invalid-decimals message is not the missing-logo message. -/
theorem msgDecimalsInvalid_ne_logo : msgDecimalsInvalid ≠ msgLogoMissing := by
  decide

/-- The invalid-decimals message is not the extensions-dictionary message. -/
theorem msgDecimalsInvalid_ne_extNotDict : msgDecimalsInvalid ≠ msgExtNotDict := by
  decide

/-- The invalid-decimals message is not an extension-type message. -/
theorem msgDecimalsInvalid_ne_extType (t : String) (ty : ExtType) (v : Value) :
    msgDecimalsInvalid ≠ msgExtType t ty v :=
  (ne_of_ne_at_const 8 "Invalid type for extension '"
    (t ++ ("': expected " ++ (extTypeName ty ++ (", got " ++ pyTypeName v))))
    msgDecimalsInvalid (by decide) (by decide)).symm

/-- The invalid-decimals message is not an extension-tag message. -/
theorem msgDecimalsInvalid_ne_extTag (t : String) : msgDecimalsInvalid ≠ msgExtTag t :=
  (ne_of_ne_at_const 8 "Invalid extension tag: "
    (t ++ (". Allowed tags are: "
      ++ String.intercalate ", " (ALLOWED_EXTENSIONS.map (fun p => p.1))))
    msgDecimalsInvalid (by decide) (by decide)).symm

/-- The invalid-decimals message is not the missing-address message. -/
theorem msgDecimalsInvalid_ne_onchainNoAddress : msgDecimalsInvalid ≠ msgOnchainNoAddress := by
  decide

/-- The invalid-decimals message is not an on-chain name mismatch. -/
theorem msgDecimalsInvalid_ne_onchainName (a : String) (b : Value) :
    msgDecimalsInvalid ≠ msgOnchainName a b :=
  (ne_of_ne_at_const 0 "Name mismatch: expected '"
    (a ++ ("', got '" ++ (pyStr b ++ "'"))) msgDecimalsInvalid (by decide) (by decide)).symm

/-- The invalid-decimals message is not a name fetch failure. -/
theorem msgDecimalsInvalid_ne_fetchName (e : String) :
    msgDecimalsInvalid ≠ msgFetchNameFailed e :=
  (ne_of_ne_at_const 0 "Failed to fetch on-chain name: " e msgDecimalsInvalid
    (by decide) (by decide)).symm

/-- The invalid-decimals message is not an on-chain symbol mismatch. -/
theorem msgDecimalsInvalid_ne_onchainSymbol (a : String) (b : Value) :
    msgDecimalsInvalid ≠ msgOnchainSymbol a b :=
  (ne_of_ne_at_const 0 "Symbol mismatch: expected '"
    (a ++ ("', got '" ++ (pyStr b ++ "'"))) msgDecimalsInvalid (by decide) (by decide)).symm

/-- The invalid-decimals message is not a symbol fetch failure. -/
theorem msgDecimalsInvalid_ne_fetchSymbol (e : String) :
    msgDecimalsInvalid ≠ msgFetchSymbolFailed e :=
  (ne_of_ne_at_const 0 "Failed to fetch on-chain symbol: " e msgDecimalsInvalid
    (by decide) (by decide)).symm

/-- The invalid-decimals message is not an on-chain decimals mismatch. -/
theorem msgDecimalsInvalid_ne_onchainDecimals (a : Int) (b : Value) :
    msgDecimalsInvalid ≠ msgOnchainDecimals a b :=
  (ne_of_ne_at_const 0 "Decimals mismatch: expected "
    (toString a ++ (", got " ++ pyStr b)) msgDecimalsInvalid (by decide) (by decide)).symm

/-- The invalid-decimals message is not a decimals fetch failure. -/
theorem msgDecimalsInvalid_ne_fetchDecimals (e : String) :
    msgDecimalsInvalid ≠ msgFetchDecimalsFailed e :=
  (ne_of_ne_at_const 0 "Failed to fetch on-chain decimals: " e msgDecimalsInvalid
    (by decide) (by decide)).symm

/-!
### Claim theorems
-/

/-- Claim C3: for every descriptor missing at least one required field
(`chainId`, `address`, `name`, `symbol`, `decimals`), validation returns
exactly one error message naming precisely the missing fields (in the
required-fields order) and performs no further schema or on-chain check —
the empty fetch trace shows the short-circuit. -/
theorem claim_C3_missing_fields (data : Dict) (dirName : String) (logoExists : Bool)
    (o : FetchOracle) (h : requiredMissing data ≠ []) :
    validate_token_data data dirName logoExists o =
      .ok ([msgMissing (requiredMissing data)], []) := by
  unfold validate_token_data
  have hne : (requiredMissing data).isEmpty = false := by
    simpa [List.isEmpty_iff] using h
  simp [hne]

/-- Witness for claim C3 at the empty descriptor. -/
theorem claim_C3_witness :
    requiredMissing ([] : Dict) ≠ [] ∧
    validate_token_data [] "USDX" true oracleHappy =
      .ok (["Missing required fields: chainId, address, name, symbol, decimals"], []) :=
  ⟨by decide, claim_C3_missing_fields [] "USDX" true oracleHappy (by decide)⟩

/-- Claim C4: a descriptor whose address equals the null address makes
on-chain reconciliation return no errors and perform no fetch, for every
oracle and hence regardless of the declared name, symbol and decimals. -/
theorem claim_C4_null_address (data : Dict) (o : FetchOracle)
    (h : dictGet data "address" = .str ZERO_ADDRESS) :
    validate_onchain_metadata data o = ([], []) := by
  unfold validate_onchain_metadata
  rw [h]
  simp [pyTruthy, pyEqStr, ZERO_ADDRESS]

/-- Witness for claim C4: a null-address descriptor with ill-typed
name/symbol/decimals and an oracle on which every fetch would raise. -/
theorem claim_C4_witness :
    dictGet dataC4 "address" = .str ZERO_ADDRESS ∧
    validate_onchain_metadata dataC4 oracleDead = ([], []) :=
  ⟨rfl, claim_C4_null_address dataC4 oracleDead rfl⟩

/-- Claim C10: a present-but-falsy address (for example the empty string)
makes the reconciler return exactly the single missing-address error and
perform no fetch, the same behaviour as an absent address. -/
theorem claim_C10_falsy_address (data : Dict) (o : FetchOracle)
    (h : pyTruthy (dictGet data "address") = false) :
    validate_onchain_metadata data o = ([msgOnchainNoAddress], []) := by
  unfold validate_onchain_metadata
  dsimp only
  rw [h]
  rfl

/-- Witness for claim C10 at a descriptor whose address is `""`. -/
theorem claim_C10_witness :
    dictGet dataC10 "address" = .str "" ∧
    pyTruthy (dictGet dataC10 "address") = false ∧
    validate_onchain_metadata dataC10 oracleHappy = ([msgOnchainNoAddress], []) :=
  ⟨rfl, by decide, claim_C10_falsy_address dataC10 oracleHappy (by decide)⟩

/-- Claim C2 (code bug): a descriptor with all five required fields present
but an integer `address` makes `validate_token_data` raise `TypeError`
(from `re.match`) instead of returning an error list, so the exception
escapes to the top-level handler and aborts the run. -/
theorem claim_C2_typeerror :
    requiredMissing dataC2 = [] ∧
    validate_token_data dataC2 "TOK" true oracleHappy =
      .error "TypeError: expected string or bytes-like object, got 'int'" :=
  ⟨by decide, rfl⟩

/-- Claim C6: the modelled run exits 0 exactly when the data directory was
found and either no token directory exists (vacuous success, before any
connection attempt) or the connection was established and every token
directory produced zero errors without raising; and the exit status is
always 0 or 1, so any token failure, connection failure, or unexpected
exception yields 1. -/
theorem claim_C6_exit_status (dd : Except String Unit)
    (dirs : List (Except String (List String))) (conn : Except String Unit) :
    (mainModel dd dirs conn = 0 ↔
      dd = .ok () ∧ (dirs = [] ∨ (conn = .ok () ∧ ∀ r ∈ dirs, r = .ok ([] : List String)))) ∧
    (mainModel dd dirs conn = 0 ∨ mainModel dd dirs conn = 1) := by
  cases dd with
  | error e => simp [mainModel]
  | ok u =>
    cases u
    by_cases hd : dirs.isEmpty
    · rw [List.isEmpty_iff] at hd
      subst hd
      simp [mainModel]
    · have hdn : dirs ≠ [] := fun hx => hd (by rw [hx]; rfl)
      have hdb : dirs.isEmpty = false := by
        cases hx : dirs.isEmpty
        · rfl
        · exact absurd (List.isEmpty_iff.mp hx) hdn
      cases conn with
      | error e =>
        have hv : mainModel (.ok ()) dirs (.error e) = 1 := by
          simp [mainModel, hdb]
        rw [hv]
        refine ⟨⟨fun h => absurd h (by decide), ?_⟩, .inr rfl⟩
        rintro ⟨-, (h | ⟨hc, -⟩)⟩
        · exact absurd h hdn
        · exact Except.noConfusion hc
      | ok u2 =>
        cases u2
        rcases hr : runTokens dirs with e | b
        · have hforall : ¬∀ r ∈ dirs, r = .ok ([] : List String) := by
            intro hall
            rw [(runTokens_ok_true_iff dirs).mpr hall] at hr
            exact Except.noConfusion hr
          have hv : mainModel (.ok ()) dirs (.ok ()) = 1 := by
            simp [mainModel, hdb, hr]
          rw [hv]
          refine ⟨⟨fun h => absurd h (by decide), ?_⟩, .inr rfl⟩
          rintro ⟨-, (h | ⟨-, hall⟩)⟩
          · exact absurd h hdn
          · exact absurd hall hforall
        · cases b
          · have hforall : ¬∀ r ∈ dirs, r = .ok ([] : List String) := by
              intro hall
              rw [(runTokens_ok_true_iff dirs).mpr hall] at hr
              injection hr with hr2
              exact absurd hr2 (by decide)
            have hv : mainModel (.ok ()) dirs (.ok ()) = 1 := by
              simp [mainModel, hdb, hr]
            rw [hv]
            refine ⟨⟨fun h => absurd h (by decide), ?_⟩, .inr rfl⟩
            rintro ⟨-, (h | ⟨-, hall⟩)⟩
            · exact absurd h hdn
            · exact absurd hall hforall
          · have hall : ∀ r ∈ dirs, r = .ok ([] : List String) :=
              (runTokens_ok_true_iff dirs).mp hr
            have hv : mainModel (.ok ()) dirs (.ok ()) = 0 := by
              simp [mainModel, hdb, hr]
            rw [hv]
            exact ⟨⟨fun _ => ⟨rfl, .inr ⟨rfl, hall⟩⟩, fun _ => rfl⟩, .inl rfl⟩


/-- Claim C5: for a truthy, non-null address the reconciler performs each of
the three fetches exactly once; a fetch that raises contributes its own
distinct failure message and a fetched value that differs from the declared
one contributes a mismatch message naming both, each regardless of what the
other two fetches did; at most three messages result. -/
theorem claim_C5_fetch_independence (data : Dict) (o : FetchOracle)
    (h1 : pyTruthy (dictGet data "address") = true)
    (h2 : pyEqStr (dictGet data "address") ZERO_ADDRESS = false) :
    reconcileFetchProp data o := by
  unfold reconcileFetchProp validate_onchain_metadata
  dsimp only
  rw [h1, h2]
  simp only [Bool.not_true, Bool.false_eq_true, if_false]
  refine ⟨by trivial, ?_, ?_, ?_, ?_, ?_, ?_, ?_⟩
  · have l1 : (match o.fetch_token_name (dictGet data "address") with
        | Except.ok onchain =>
          if (!pyEqStr (dictGet data "name") onchain) = true then
            [msgOnchainName onchain (dictGet data "name")]
          else []
        | Except.error e => [msgFetchNameFailed e]).length ≤ 1 := by
      rcases o.fetch_token_name (dictGet data "address") with e | n
      · simp
      · dsimp only
        split <;> simp
    have l2 : (match o.fetch_token_symbol (dictGet data "address") with
        | Except.ok onchain =>
          if (!pyEqStr (dictGet data "symbol") onchain) = true then
            [msgOnchainSymbol onchain (dictGet data "symbol")]
          else []
        | Except.error e => [msgFetchSymbolFailed e]).length ≤ 1 := by
      rcases o.fetch_token_symbol (dictGet data "address") with e | n
      · simp
      · dsimp only
        split <;> simp
    have l3 : (match o.fetch_token_decimals (dictGet data "address") with
        | Except.ok onchain =>
          if (!pyEqInt (dictGet data "decimals") onchain) = true then
            [msgOnchainDecimals onchain (dictGet data "decimals")]
          else []
        | Except.error e => [msgFetchDecimalsFailed e]).length ≤ 1 := by
      rcases o.fetch_token_decimals (dictGet data "address") with e | n
      · simp
      · dsimp only
        split <;> simp
    simp only [List.length_append]
    omega
  · intro e he
    simp [he]
  · intro n hn hne
    simp [hn, hne]
  · intro e he
    simp [he]
  · intro n hn hne
    simp [hn, hne]
  · intro e he
    simp [he]
  · intro d hd hne
    simp [hd, hne]

/-- Witness for claim C5: the name fetch raises while the symbol fetch
succeeds with a conflicting value and the decimals fetch matches. -/
theorem claim_C5_witness :
    pyTruthy (dictGet dataC5 "address") = true ∧
    pyEqStr (dictGet dataC5 "address") ZERO_ADDRESS = false ∧
    reconcileFetchProp dataC5 oracleDown :=
  ⟨by decide, by decide,
    claim_C5_fetch_independence dataC5 oracleDown (by decide) (by decide)⟩

/-- The per-binding extensions check, written out against the closed
whitelist table. -/
theorem extKeyError_eq (p : String × Value) :
    extKeyError p =
      (if p.1 = "coinGeckoId" then
        if isStr p.2 then none else some (msgExtType p.1 .str p.2)
      else some (msgExtTag p.1)) := by
  unfold extKeyError ALLOWED_EXTENSIONS
  by_cases h : p.1 = "coinGeckoId"
  · simp [List.find?, h]
    cases hb : isStr p.2 <;> simp [isinstanceOf, hb]
  · simp only [List.find?]
    have : ("coinGeckoId" == p.1) = false := by
      simp [beq_iff_eq]
      exact fun hx => h hx.symm
    rw [this]
    simp [h]

/-- Claim C9: with an extensions field present, a non-mapping value yields
exactly the one dictionary error; a mapping yields, binding by binding and
in order, exactly one invalid-type message per whitelisted key (only
`coinGeckoId`, typed `str`) holding a wrongly typed value, exactly one
invalid-tag message per key outside the whitelist, and nothing for a
correctly typed whitelisted key. -/
theorem claim_C9_extensions (data : Dict)
    (h : dictContains data "extensions" = true) :
    extensionsReportProp data := by
  constructor
  · intro exts hx
    unfold extensionsErrors
    rw [h, hx]
    simp only [if_true]
    have hf : extKeyError = fun p : String × Value =>
        (if p.1 = "coinGeckoId" then
          if isStr p.2 then none else some (msgExtType p.1 .str p.2)
        else some (msgExtTag p.1)) := funext extKeyError_eq
    rw [hf]
  · intro hnd
    unfold extensionsErrors
    rw [h]
    simp only [if_true]
    rcases hv : dictGet data "extensions" with s | n | b | _ | xs | xs <;>
      first
        | rfl
        | (rw [hv] at hnd; simp [isDict] at hnd)

/-- Witness for claim C9: one wrongly typed whitelisted key and one unknown
key. -/
theorem claim_C9_witness :
    dictContains dataC9 "extensions" = true ∧ extensionsReportProp dataC9 :=
  ⟨by decide, claim_C9_extensions dataC9 (by decide)⟩

/-- A member of a conditional singleton equals its element. -/
theorem mem_ite_singleton {m x : String} {c : Prop} [Decidable c]
    (h : m ∈ (if c then [x] else [])) : m = x := by
  split at h <;> simp_all

/-- Counterexample to claim C1 as stated: this address carries a trailing
newline, so it does not consist of `0x` and 40 hex digits alone, yet the
regex accepts it (Python `$`) and a full validation run reports no
invalid-address error at all. -/
theorem claim_C1_counterexample :
    specAddressFormat addrNL = false ∧
    is_valid_address addrNL = true ∧
    validate_token_data dataC1 "TOK" true oracleHappy =
      .ok ([], [.name (.str addrNL), .symbol (.str addrNL), .decimals (.str addrNL)]) :=
  ⟨by decide, by decide, by rfl⟩

/-- Claim C1 (amended): for a descriptor with no missing fields and a string
address, the invalid-address error is reported iff the string is neither
`0x` plus exactly 40 hex digits nor that same form followed by one trailing
newline — the extra newline form is admitted by Python's `$` anchor. -/
theorem claim_C1_amended (data : Dict) (dirName : String) (logoExists : Bool)
    (o : FetchOracle) (s : String)
    (hmiss : requiredMissing data = [])
    (haddr : dictGet data "address" = .str s) :
    addressReportProp data dirName logoExists o s := by
  refine ⟨_, _, validate_token_data_ok data dirName logoExists o s hmiss haddr,
    ?_, is_valid_address_iff s⟩
  constructor
  · intro hmem
    cases hval : is_valid_address s with
    | false => rfl
    | true =>
      rw [hval] at hmem
      simp only [Bool.not_true, Bool.false_eq_true, if_false, List.append_nil,
        List.nil_append, List.mem_append] at hmem
      rcases hmem with ((((((h | h) | h) | h) | h) | h) | h)
      · obtain ⟨v, hv⟩ := mem_chainIdErrors _ _ h
        exact absurd hv (msgAddress_ne_chain s v)
      · exact absurd (mem_nameErrors _ _ h) (msgAddress_ne_nameInvalid s)
      · rcases mem_symbolErrors _ _ _ h with h2 | ⟨t, h2⟩
        · exact absurd h2 (msgAddress_ne_symbolInvalid s)
        · exact absurd h2 (msgAddress_ne_symbolMismatch s dirName t)
      · exact absurd (mem_decimalsErrors _ _ h) (msgAddress_ne_decimalsInvalid s)
      · exact absurd (mem_logoErrors _ _ h) (msgAddress_ne_logo s)
      · rcases mem_extensionsErrors _ _ h with h2 | ⟨t, v, h2⟩ | ⟨t, h2⟩
        · exact absurd h2 (msgAddress_ne_extNotDict s)
        · exact absurd h2 (msgAddress_ne_extType s t .str v)
        · exact absurd h2 (msgAddress_ne_extTag s t)
      · rcases mem_onchainErrors _ _ _ h with
          h2 | ⟨a, b, h2⟩ | ⟨e, h2⟩ | ⟨a, b, h2⟩ | ⟨e, h2⟩ | ⟨a, b, h2⟩ | ⟨e, h2⟩
        · exact absurd h2 (msgAddress_ne_onchainNoAddress s)
        · exact absurd h2 (msgAddress_ne_onchainName s a b)
        · exact absurd h2 (msgAddress_ne_fetchName s e)
        · exact absurd h2 (msgAddress_ne_onchainSymbol s a b)
        · exact absurd h2 (msgAddress_ne_fetchSymbol s e)
        · exact absurd h2 (msgAddress_ne_onchainDecimals s a b)
        · exact absurd h2 (msgAddress_ne_fetchDecimals s e)
  · intro hval
    simp [hval]

/-- Witness for the amended claim C1 at the trailing-newline address. -/
theorem claim_C1_witness :
    requiredMissing dataC1 = [] ∧ dictGet dataC1 "address" = .str addrNL ∧
    addressReportProp dataC1 "TOK" true oracleHappy addrNL :=
  ⟨by decide, rfl,
    claim_C1_amended dataC1 "TOK" true oracleHappy addrNL (by decide) rfl⟩

/-- Claim C7: for a descriptor with no missing fields and a string address,
a string symbol that is non-empty after trimming draws the symbol/directory
mismatch error naming both values iff it differs case-sensitively from the
directory name, while a whitespace-only or non-string symbol draws the
distinct non-empty-string error. -/
theorem claim_C7_symbol (data : Dict) (dirName : String) (logoExists : Bool)
    (o : FetchOracle) (as : String)
    (hmiss : requiredMissing data = [])
    (haddr : dictGet data "address" = .str as) :
    symbolReportProp data dirName logoExists o := by
  refine ⟨_, _, validate_token_data_ok data dirName logoExists o as hmiss haddr,
    ?_, ?_, ?_⟩
  · intro s hsym hstrip
    constructor
    · intro hmem
      by_contra hne
      subst hne
      have hseg : symbolErrors data s = [] := by
        unfold symbolErrors
        rw [hsym]
        simp [hstrip]
      rw [hseg] at hmem
      simp only [List.append_nil, List.nil_append, List.mem_append] at hmem
      rcases hmem with ((((((h | h) | h) | h) | h) | h) | h)
      · obtain ⟨v, hv⟩ := mem_chainIdErrors _ _ h
        exact absurd hv (msgSymbolMismatch_ne_chain s s v)
      · exact absurd (mem_ite_singleton h).symm
          (msgAddress_ne_symbolMismatch as s s)
      · exact absurd (mem_nameErrors _ _ h)
          (msgSymbolMismatch_ne_nameInvalid s s)
      · exact absurd (mem_decimalsErrors _ _ h)
          (msgSymbolMismatch_ne_decimalsInvalid s s)
      · exact absurd (mem_logoErrors _ _ h) (msgSymbolMismatch_ne_logo s s)
      · rcases mem_extensionsErrors _ _ h with h2 | ⟨t, v, h2⟩ | ⟨t, h2⟩
        · exact absurd h2 (msgSymbolMismatch_ne_extNotDict s s)
        · exact absurd h2 (msgSymbolMismatch_ne_extType s s t .str v)
        · exact absurd h2 (msgSymbolMismatch_ne_extTag s s t)
      · rcases mem_onchainErrors _ _ _ h with
          h2 | ⟨a, b, h2⟩ | ⟨e, h2⟩ | ⟨a, b, h2⟩ | ⟨e, h2⟩ | ⟨a, b, h2⟩ | ⟨e, h2⟩
        · exact absurd h2 (msgSymbolMismatch_ne_onchainNoAddress s s)
        · exact absurd h2 (msgSymbolMismatch_ne_onchainName s s a b)
        · exact absurd h2 (msgSymbolMismatch_ne_fetchName s s e)
        · exact absurd h2 (msgSymbolMismatch_ne_onchainSymbol s s a b)
        · exact absurd h2 (msgSymbolMismatch_ne_fetchSymbol s s e)
        · exact absurd h2 (msgSymbolMismatch_ne_onchainDecimals s s a b)
        · exact absurd h2 (msgSymbolMismatch_ne_fetchDecimals s s e)
    · intro hne
      have hseg : symbolErrors data dirName = [msgSymbolMismatch dirName s] := by
        unfold symbolErrors
        rw [hsym]
        simp [hstrip, hne]
      simp [hseg]
  · intro s hsym hstrip
    have hseg : symbolErrors data dirName = [msgSymbolInvalid] := by
      unfold symbolErrors
      rw [hsym]
      simp [hstrip]
    simp [hseg]
  · intro hnstr
    have hseg : symbolErrors data dirName = [msgSymbolInvalid] := by
      unfold symbolErrors
      rcases hv : dictGet data "symbol" with t | n | b | _ | xs | xs
      · rw [hv] at hnstr
        simp [isStr] at hnstr
      all_goals rfl
    simp [hseg]

/-- Witness for claim C7 at a descriptor whose symbol differs from the
directory name only by case. -/
theorem claim_C7_witness :
    requiredMissing dataC7 = [] ∧ dictGet dataC7 "address" = .str addrHexA ∧
    symbolReportProp dataC7 "TOK" true oracleHappy :=
  ⟨by decide, rfl,
    claim_C7_symbol dataC7 "TOK" true oracleHappy addrHexA (by decide) rfl⟩

/-- Counterexample to claim C8 as stated: a decimals field holding the
boolean `true` is not an integer, yet a full validation run reports no
decimals error, because Python's `bool` passes `isinstance(_, int)` and
compares as 1. -/
theorem claim_C8_counterexample :
    dictGet dataC8 "decimals" = .bool true ∧
    (∀ n : Int, dictGet dataC8 "decimals" ≠ .int n) ∧
    validate_token_data dataC8 "TOK" true oracleHappy = .ok ([], []) :=
  ⟨rfl, fun n h => Value.noConfusion h, by rfl⟩

/-- Claim C8 (amended): for a descriptor with no missing fields and a string
address, the decimals error is reported iff the field is neither an integer
within `[0, 36]` nor a boolean (booleans count as the integers 0/1, which lie
inside the bounds). -/
theorem claim_C8_amended (data : Dict) (dirName : String) (logoExists : Bool)
    (o : FetchOracle) (as : String)
    (hmiss : requiredMissing data = [])
    (haddr : dictGet data "address" = .str as) :
    decimalsReportProp data dirName logoExists o := by
  refine ⟨_, _, validate_token_data_ok data dirName logoExists o as hmiss haddr, ?_⟩
  have hseg : msgDecimalsInvalid ∈ decimalsErrors data ↔
      ¬((∃ n, dictGet data "decimals" = .int n ∧ MIN_DECIMALS ≤ n ∧ n ≤ MAX_DECIMALS) ∨
        (∃ b, dictGet data "decimals" = .bool b)) := by
    unfold decimalsErrors
    dsimp only
    rcases hv : dictGet data "decimals" with t | n | b | _ | xs | xs
    · simp [isIntLike]
    · by_cases h0 : MIN_DECIMALS ≤ n
      · by_cases h36 : n ≤ MAX_DECIMALS
        · simp [isIntLike, pyToInt, h0, h36]
        · simp [isIntLike, pyToInt, h0, h36]
      · simp [isIntLike, pyToInt, h0]
    · cases b <;> simp [isIntLike, pyToInt, MIN_DECIMALS, MAX_DECIMALS]
    · simp [isIntLike]
    · simp [isIntLike]
    · simp [isIntLike]
  constructor
  · intro hmem
    rw [← hseg]
    simp only [List.mem_append] at hmem
    rcases hmem with (((((((h | h) | h) | h) | h) | h) | h) | h)
    · obtain ⟨v, hv⟩ := mem_chainIdErrors _ _ h
      exact absurd hv (msgDecimalsInvalid_ne_chain v)
    · exact absurd (mem_ite_singleton h).symm (msgAddress_ne_decimalsInvalid as)
    · exact absurd (mem_nameErrors _ _ h) msgDecimalsInvalid_ne_nameInvalid
    · rcases mem_symbolErrors _ _ _ h with h2 | ⟨t, h2⟩
      · exact absurd h2 msgDecimalsInvalid_ne_symbolInvalid
      · exact absurd h2.symm (msgSymbolMismatch_ne_decimalsInvalid dirName t)
    · exact h
    · exact absurd (mem_logoErrors _ _ h) msgDecimalsInvalid_ne_logo
    · rcases mem_extensionsErrors _ _ h with h2 | ⟨t, v, h2⟩ | ⟨t, h2⟩
      · exact absurd h2 msgDecimalsInvalid_ne_extNotDict
      · exact absurd h2 (msgDecimalsInvalid_ne_extType t .str v)
      · exact absurd h2 (msgDecimalsInvalid_ne_extTag t)
    · rcases mem_onchainErrors _ _ _ h with
        h2 | ⟨a, b, h2⟩ | ⟨e, h2⟩ | ⟨a, b, h2⟩ | ⟨e, h2⟩ | ⟨a, b, h2⟩ | ⟨e, h2⟩
      · exact absurd h2 msgDecimalsInvalid_ne_onchainNoAddress
      · exact absurd h2 (msgDecimalsInvalid_ne_onchainName a b)
      · exact absurd h2 (msgDecimalsInvalid_ne_fetchName e)
      · exact absurd h2 (msgDecimalsInvalid_ne_onchainSymbol a b)
      · exact absurd h2 (msgDecimalsInvalid_ne_fetchSymbol e)
      · exact absurd h2 (msgDecimalsInvalid_ne_onchainDecimals a b)
      · exact absurd h2 (msgDecimalsInvalid_ne_fetchDecimals e)
  · intro hrhs
    have hm := hseg.mpr hrhs
    simp only [List.mem_append]
    tauto

/-- Witness for the amended claim C8 at the boolean-decimals descriptor. -/
theorem claim_C8_witness :
    requiredMissing dataC8 = [] ∧ dictGet dataC8 "address" = .str ZERO_ADDRESS ∧
    decimalsReportProp dataC8 "TOK" true oracleHappy :=
  ⟨by decide, rfl,
    claim_C8_amended dataC8 "TOK" true oracleHappy ZERO_ADDRESS (by decide) rfl⟩
